import Mathlib

/-!
Shallow embedding of the SCD30 CO2 monitor firmware (src/src/main.cpp).

The firmware's control loop acquires a CO2/temperature/humidity reading with
bounded retry, evaluates an email-alert condition with hysteresis and a
cooldown, publishes a telemetry payload with bounded retry, and drives a
local annunciator (LCD, buzzer, background colour).

Modelling choices:
  * `float` sensor values are embedded as rationals; the C cast `int(x)`
    is truncation toward zero (`cTrunc`).
  * `unsigned long` timestamps are naturals reduced mod 2^32 (`millis`),
    and the C expression `currentTime - lastEmailSent` is 32-bit modular
    subtraction (`u32sub`).
  * I/O performed by a function is recorded as an explicit list of
    `Effect`s, in program order.  Collaborator outcomes (WiFi status, SMTP
    connect, send, sensor read, MQTT publish) are inputs of the embedding.
  * `reconnectMQTT` blocks until connected; it is modelled as a single
    blocking effect.
-/

namespace CO2Monitor

/-- The constant `CO2_ALERT_THRESHOLD` (1000 ppm), compared against the float co2. -/
def CO2_ALERT_THRESHOLD : ℚ := 1000

/-- The constant `EMAIL_COOLDOWN` (60000 milliseconds). -/
def EMAIL_COOLDOWN : Nat := 60000

/-- The modulus 2^32 of `unsigned long` on the ESP8266. -/
def U32 : Nat := 4294967296

/-- The clock `millis()` as a function of true elapsed milliseconds: wraps mod 2^32. -/
def millis (t : Nat) : Nat := t % U32

/-- Unsigned 32-bit subtraction `a - b` as the C expression computes it. -/
def u32sub (a b : Nat) : Nat := (a % U32 + (U32 - b % U32)) % U32

/-- C cast `int(q)` of a float value: truncation toward zero. -/
def cTrunc (q : ℚ) : ℤ := q.num.tdiv q.den

/-- The globals `emailAlertSent` / `lastEmailSent` of main.cpp. -/
structure AlertState where
  emailAlertSent : Bool
  lastEmailSent : Nat
deriving Repr, DecidableEq

/-- One sensor acquisition: co2 ppm, temperature °C, humidity %RH. -/
structure Reading where
  co2 : ℚ
  temperature : ℚ
  humidity : ℚ
deriving Repr

/-- Outcomes of the email-dispatch collaborators used by `sendEmailAlert`:
`WiFi.status() == WL_CONNECTED`, `smtp.connect(&session)` and
`MailClient.sendMail(&smtp, &message)`. -/
structure EmailEnv where
  wifiConnected : Bool
  smtpConnectOk : Bool
  sendMailOk : Bool
deriving Repr, DecidableEq

/-- Observable I/O actions of the firmware, in program order. -/
inductive Effect where
  | serialLine (s : String)
  | lcdClear
  | lcdSetCursor (col row : Nat)
  | lcdPrint (s : String)
  | lcdWrite (b : Nat)
  | lcdSetRGB (r g b : Nat)
  | delayMs (n : Nat)
  | smtpConnect
  | smtpSendMail
  | buzzerWrite (high : Bool)
  | mqttPublish (topic payload : String)
  | mqttReconnect
  | mqttLoop
  | sensorRead
deriving Repr, DecidableEq

/-- Model of `sendEmailAlert` (main.cpp lines 217-282): returns its effect trace and
whether the email was actually delivered.  The SMTP session and message
construction are pure data assembly and leave no observable effect. -/
def sendEmailAlert (env : EmailEnv) (co2 temperature humidity : ℚ) :
    List Effect × Bool :=
  if env.wifiConnected = false then
    ([Effect.serialLine "WiFi not connected, cannot send email"], false)
  else
    let pre : List Effect :=
      [Effect.serialLine "Preparing to send email alert...",
       Effect.lcdClear, Effect.lcdSetCursor 0 0, Effect.lcdPrint "Sending Alert..."]
    if env.smtpConnectOk = false then
      (pre ++ [Effect.smtpConnect, Effect.serialLine "Connection error",
               Effect.lcdClear, Effect.lcdPrint "Email Error!"], false)
    else if env.sendMailOk = false then
      (pre ++ [Effect.smtpConnect, Effect.smtpSendMail,
               Effect.serialLine "Error sending Email",
               Effect.lcdClear, Effect.lcdPrint "Email Failed!"], false)
    else
      (pre ++ [Effect.smtpConnect, Effect.smtpSendMail,
               Effect.serialLine "Email sent successfully",
               Effect.lcdClear, Effect.lcdPrint "Alert Sent!",
               Effect.delayMs 2000, Effect.lcdClear], true)

/-- Result of one `checkCO2Alert` call: the new globals, whether
`sendEmailAlert` was invoked, and the effect trace. -/
structure CheckResult where
  state : AlertState
  notified : Bool
  trace : List Effect
deriving Repr, DecidableEq

/-- Model of `checkCO2Alert` (main.cpp lines 197-215).  `now` is true elapsed time;
the function reads the clock through `millis`. -/
def checkCO2Alert (env : EmailEnv) (s : AlertState) (co2 temperature humidity : ℚ)
    (now : Nat) : CheckResult :=
  if CO2_ALERT_THRESHOLD ≤ co2 then
    let currentTime := millis now
    if s.emailAlertSent = false ∨ EMAIL_COOLDOWN ≤ u32sub currentTime s.lastEmailSent then
      { state := { emailAlertSent := true, lastEmailSent := currentTime },
        notified := true,
        trace := (sendEmailAlert env co2 temperature humidity).1 ++
          [Effect.lcdSetRGB 255 0 0, Effect.delayMs 1000, Effect.lcdSetRGB 255 255 255] }
    else
      { state := s, notified := false, trace := [] }
  else
    if co2 < CO2_ALERT_THRESHOLD - 100 then
      { state := { s with emailAlertSent := false }, notified := false, trace := [] }
    else
      { state := s, notified := false, trace := [] }

/-- The retry loop shared by `readSensorWithRetry` and `publishWithRetry`:
`attempts i` is the outcome of the `i`-th invocation of the underlying
operation.  Returns (overall success, number of invocations made). -/
def retryRun (attempts : Nat → Bool) : Nat → Nat → Bool × Nat
  | _, 0 => (false, 0)
  | i, n + 1 =>
    if attempts i then (true, 1)
    else
      let r := retryRun attempts (i + 1) n
      (r.1, r.2 + 1)

/-- Model of `readSensorWithRetry` (main.cpp lines 168-176) at an explicit retry cap. -/
def readSensorWithRetryN (attempts : Nat → Bool) (maxRetries : Nat) : Bool × Nat :=
  retryRun attempts 0 maxRetries

/-- The function `readSensorWithRetry` at its default `maxRetries = 3`. -/
def readSensorWithRetry (attempts : Nat → Bool) : Bool × Nat :=
  readSensorWithRetryN attempts 3

/-- Model of `publishWithRetry` (main.cpp lines 178-186) at an explicit retry cap. -/
def publishWithRetryN (attempts : Nat → Bool) (maxRetries : Nat) : Bool × Nat :=
  retryRun attempts 0 maxRetries

/-- The function `publishWithRetry` at its default `maxRetries = 3`. -/
def publishWithRetry (attempts : Nat → Bool) : Bool × Nat :=
  publishWithRetryN attempts 3

/-- Two-digit zero-padded decimal rendering of `n < 100`. -/
def pad2 (n : Nat) : String := if n < 10 then "0" ++ toString n else toString n

/-- Arduino `String(float)` for a nonnegative value: two decimal places,
rounding half up. -/
def fmt2abs (q : ℚ) : String :=
  let n : Nat := ((q * 100 + 1 / 2).floor).toNat
  toString (n / 100) ++ "." ++ pad2 (n % 100)

/-- Arduino `String(float)`: default two-decimal rendering. -/
def fmt2 (q : ℚ) : String := if q < 0 then "-" ++ fmt2abs (-q) else fmt2abs q

/-- The telemetry payload built in `loop()` (main.cpp lines 78-82). -/
def payloadString (r : Reading) : String :=
  "field1=" ++ fmt2 r.co2 ++ "&field2=" ++ fmt2 r.temperature ++
  "&field3=" ++ fmt2 r.humidity ++ "&status=MQTTPUBLISH"

/-- The payload as the spec words it: key=value pairs joined by the
ampersand separator, in fixed field order.  Stated for comparison with
`payloadString`. -/
def payloadSpec (r : Reading) : String :=
  String.intercalate "&"
    ["field1=" ++ fmt2 r.co2, "field2=" ++ fmt2 r.temperature,
     "field3=" ++ fmt2 r.humidity, "status=MQTTPUBLISH"]

/-- The MQTT topic constant of main.cpp. -/
def topicStr : String := "channels/3141928/publish"

/-- Per-cycle environment: collaborator outcomes and the clock for one
iteration of `loop()`. -/
structure CycleEnv where
  mqttConnected : Bool
  sensorAttempts : Nat → Bool
  reading : Reading
  publishAttempts : Nat → Bool
  email : EmailEnv
  now : Nat

/-- The steady-state LCD rendering of `loop()` (main.cpp lines 96-110). -/
def displayTrace (r : Reading) : List Effect :=
  [Effect.lcdSetCursor 0 0, Effect.lcdPrint "CO2: ",
   Effect.lcdPrint (toString (cTrunc r.co2)), Effect.lcdPrint " ppm",
   Effect.lcdSetCursor 0 1, Effect.lcdPrint "T: ",
   Effect.lcdPrint (toString (cTrunc r.temperature)), Effect.lcdWrite 0xDF,
   Effect.lcdPrint "C",
   Effect.lcdSetCursor 8 1, Effect.lcdPrint "H: ",
   Effect.lcdPrint (toString (cTrunc r.humidity)), Effect.lcdWrite 0x25]

/-- One iteration of `loop()` (main.cpp lines 59-119): returns the new alert
globals and the cycle's effect trace. -/
def loopCycle (env : CycleEnv) (s : AlertState) : AlertState × List Effect :=
  let connTr : List Effect :=
    (if env.mqttConnected then [] else [Effect.mqttReconnect]) ++ [Effect.mqttLoop]
  let read := readSensorWithRetry env.sensorAttempts
  let readTr := List.replicate read.2 Effect.sensorRead
  if read.1 = false then
    (s, connTr ++ readTr ++ [Effect.lcdClear, Effect.lcdPrint "Sensor Error!",
                             Effect.delayMs 2000])
  else
    let r := env.reading
    let chk := checkCO2Alert env.email s r.co2 r.temperature r.humidity env.now
    let payload := payloadString r
    let pub := publishWithRetry env.publishAttempts
    let pubTr :=
      List.replicate pub.2 (Effect.mqttPublish topicStr payload) ++
      (if pub.1 = false then
        [Effect.lcdPrint "Publish Failed!", Effect.delayMs 2000, Effect.lcdClear]
      else [])
    let buzzTr : List Effect :=
      (if 1000 < cTrunc r.co2 then [Effect.buzzerWrite true, Effect.delayMs 1000]
       else []) ++
      [Effect.buzzerWrite false, Effect.delayMs 1000]
    (chk.state,
      connTr ++ readTr ++ chk.trace ++
      [Effect.serialLine "Publishing payload:", Effect.serialLine payload,
       Effect.delayMs 2000, Effect.lcdClear] ++
      pubTr ++ displayTrace r ++ buzzTr)

/-- One alert-evaluation input: a reading plus the true time of the call. -/
structure AlertStep where
  co2 : ℚ
  temperature : ℚ
  humidity : ℚ
  now : Nat
deriving Repr

/-- Thread `checkCO2Alert` through a sequence of evaluations, collecting the
true times at which a notification was fired. -/
def runAlerts (env : EmailEnv) : AlertState → List AlertStep → List Nat
  | _, [] => []
  | s, st :: rest =>
    let r := checkCO2Alert env s st.co2 st.temperature st.humidity st.now
    (if r.notified then [st.now] else []) ++ runAlerts env r.state rest

/-- The state transition of `checkCO2Alert` as a pure function of the alert
state, the co2 value and the clock alone. -/
def alertStateStep (s : AlertState) (co2 : ℚ) (now : Nat) : AlertState :=
  if CO2_ALERT_THRESHOLD ≤ co2 then
    if s.emailAlertSent = false ∨ EMAIL_COOLDOWN ≤ u32sub (millis now) s.lastEmailSent then
      { emailAlertSent := true, lastEmailSent := millis now }
    else s
  else
    if co2 < CO2_ALERT_THRESHOLD - 100 then
      { emailAlertSent := false, lastEmailSent := s.lastEmailSent }
    else s

/-- The fire decision of `checkCO2Alert` as a pure function of the alert
state, the co2 value and the clock alone. -/
def alertFires (s : AlertState) (co2 : ℚ) (now : Nat) : Bool :=
  decide (CO2_ALERT_THRESHOLD ≤ co2 ∧
    (s.emailAlertSent = false ∨ EMAIL_COOLDOWN ≤ u32sub (millis now) s.lastEmailSent))

/-! Helper lemmas about the embedded definitions. -/

/-- 32-bit modular subtraction of wrapped clocks recovers the true elapsed
time whenever the true separation is under 2^32. -/
lemma u32sub_millis_eq {a b : Nat} (hle : b ≤ a) (hlt : a - b < U32) :
    u32sub (millis a) (millis b) = a - b := by
  unfold u32sub millis
  unfold U32 at hlt ⊢
  omega

/-- Splitting a string literal at the ampersand, for the payload proof. -/
lemma amp_field2_split : ("&field2=" : String) = "&" ++ "field2=" := rfl

/-- Splitting a string literal at the ampersand, for the payload proof. -/
lemma amp_field3_split : ("&field3=" : String) = "&" ++ "field3=" := rfl

/-- Splitting a string literal at the ampersand, for the payload proof. -/
lemma amp_status_split : ("&status=MQTTPUBLISH" : String) = "&" ++ "status=MQTTPUBLISH" := rfl

/-- When the alert condition holds and either the state is disarmed or the
cooldown has elapsed, `checkCO2Alert` invokes `sendEmailAlert`, arms the
state and stamps the wrapped clock. -/
lemma checkCO2Alert_fire (env : EmailEnv) (s : AlertState) (co2 temperature humidity : ℚ)
    (now : Nat) (hco2 : CO2_ALERT_THRESHOLD ≤ co2)
    (hc : s.emailAlertSent = false ∨ EMAIL_COOLDOWN ≤ u32sub (millis now) s.lastEmailSent) :
    checkCO2Alert env s co2 temperature humidity now =
      ⟨⟨true, millis now⟩, true,
        (sendEmailAlert env co2 temperature humidity).1 ++
          [Effect.lcdSetRGB 255 0 0, Effect.delayMs 1000, Effect.lcdSetRGB 255 255 255]⟩ := by
  simp only [checkCO2Alert]
  rw [if_pos hco2, if_pos hc]

/-- When the alert condition holds but the state is armed and the cooldown
has not elapsed, `checkCO2Alert` does nothing. -/
lemma checkCO2Alert_suppress (env : EmailEnv) (s : AlertState) (co2 temperature humidity : ℚ)
    (now : Nat) (hco2 : CO2_ALERT_THRESHOLD ≤ co2)
    (hc : ¬(s.emailAlertSent = false ∨ EMAIL_COOLDOWN ≤ u32sub (millis now) s.lastEmailSent)) :
    checkCO2Alert env s co2 temperature humidity now = ⟨s, false, []⟩ := by
  simp only [checkCO2Alert]
  rw [if_pos hco2, if_neg hc]

/-- Inside the hysteresis band the state and trace are untouched. -/
lemma checkCO2Alert_band (env : EmailEnv) (s : AlertState) (co2 temperature humidity : ℚ)
    (now : Nat) (hlo : CO2_ALERT_THRESHOLD - 100 ≤ co2) (hhi : co2 < CO2_ALERT_THRESHOLD) :
    checkCO2Alert env s co2 temperature humidity now = ⟨s, false, []⟩ := by
  simp only [checkCO2Alert]
  rw [if_neg (not_le.mpr hhi), if_neg (not_lt.mpr hlo)]

/-- Below the hysteresis band the state disarms and nothing else happens. -/
lemma checkCO2Alert_disarm (env : EmailEnv) (s : AlertState) (co2 temperature humidity : ℚ)
    (now : Nat) (hlo : co2 < CO2_ALERT_THRESHOLD - 100) :
    checkCO2Alert env s co2 temperature humidity now =
      ⟨⟨false, s.lastEmailSent⟩, false, []⟩ := by
  have hhi : ¬CO2_ALERT_THRESHOLD ≤ co2 := by
    rw [not_le]
    calc co2 < CO2_ALERT_THRESHOLD - 100 := hlo
    _ < CO2_ALERT_THRESHOLD := by norm_num [CO2_ALERT_THRESHOLD]
  simp only [checkCO2Alert]
  rw [if_neg hhi, if_pos hlo]

/-- A fired notification pins down the whole result of `checkCO2Alert`. -/
lemma checkCO2Alert_of_notified (env : EmailEnv) (s : AlertState)
    (co2 temperature humidity : ℚ) (now : Nat)
    (h : (checkCO2Alert env s co2 temperature humidity now).notified = true) :
    checkCO2Alert env s co2 temperature humidity now =
      ⟨⟨true, millis now⟩, true,
        (sendEmailAlert env co2 temperature humidity).1 ++
          [Effect.lcdSetRGB 255 0 0, Effect.delayMs 1000, Effect.lcdSetRGB 255 255 255]⟩ := by
  by_cases hco2 : CO2_ALERT_THRESHOLD ≤ co2
  · by_cases hc : s.emailAlertSent = false ∨ EMAIL_COOLDOWN ≤ u32sub (millis now) s.lastEmailSent
    · exact checkCO2Alert_fire env s co2 temperature humidity now hco2 hc
    · rw [checkCO2Alert_suppress env s co2 temperature humidity now hco2 hc] at h
      exact absurd h (by simp)
  · rw [not_le] at hco2
    by_cases hlo : co2 < CO2_ALERT_THRESHOLD - 100
    · rw [checkCO2Alert_disarm env s co2 temperature humidity now hlo] at h
      exact absurd h (by simp)
    · rw [checkCO2Alert_band env s co2 temperature humidity now (not_lt.mp hlo) hco2] at h
      exact absurd h (by simp)

/-- With the co2 value at or over the threshold, a call that does not fire
leaves the state untouched. -/
lemma checkCO2Alert_of_not_notified (env : EmailEnv) (s : AlertState)
    (co2 temperature humidity : ℚ) (now : Nat) (hco2 : CO2_ALERT_THRESHOLD ≤ co2)
    (h : (checkCO2Alert env s co2 temperature humidity now).notified = false) :
    checkCO2Alert env s co2 temperature humidity now = ⟨s, false, []⟩ := by
  by_cases hc : s.emailAlertSent = false ∨ EMAIL_COOLDOWN ≤ u32sub (millis now) s.lastEmailSent
  · rw [checkCO2Alert_fire env s co2 temperature humidity now hco2 hc] at h
    exact absurd h (by simp)
  · exact checkCO2Alert_suppress env s co2 temperature humidity now hco2 hc

/-- The email-dispatch trace never drives the buzzer. -/
lemma sendEmailAlert_no_buzzer (env : EmailEnv) (co2 temperature humidity : ℚ) (b : Bool) :
    Effect.buzzerWrite b ∉ (sendEmailAlert env co2 temperature humidity).1 := by
  unfold sendEmailAlert
  split_ifs <;> simp

/-- The alert-evaluation trace never drives the buzzer. -/
lemma checkCO2Alert_no_buzzer (env : EmailEnv) (s : AlertState)
    (co2 temperature humidity : ℚ) (now : Nat) (b : Bool) :
    Effect.buzzerWrite b ∉ (checkCO2Alert env s co2 temperature humidity now).trace := by
  by_cases hco2 : CO2_ALERT_THRESHOLD ≤ co2
  · by_cases hc : s.emailAlertSent = false ∨ EMAIL_COOLDOWN ≤ u32sub (millis now) s.lastEmailSent
    · rw [checkCO2Alert_fire env s co2 temperature humidity now hco2 hc]
      simp [List.mem_append, sendEmailAlert_no_buzzer]
    · rw [checkCO2Alert_suppress env s co2 temperature humidity now hco2 hc]
      simp
  · rw [not_le] at hco2
    by_cases hlo : co2 < CO2_ALERT_THRESHOLD - 100
    · rw [checkCO2Alert_disarm env s co2 temperature humidity now hlo]
      simp
    · rw [checkCO2Alert_band env s co2 temperature humidity now (not_lt.mp hlo) hco2]
      simp

/-- Unfolding of `runAlerts` on a cons cell. -/
lemma runAlerts_cons (env : EmailEnv) (s : AlertState) (st : AlertStep) (rest : List AlertStep) :
    runAlerts env s (st :: rest) =
      (if (checkCO2Alert env s st.co2 st.temperature st.humidity st.now).notified
        then [st.now] else []) ++
      runAlerts env (checkCO2Alert env s st.co2 st.temperature st.humidity st.now).state rest :=
  rfl

/-- Once armed with `lastEmailSent` stamped at true time `tau`, a run whose
readings all meet the threshold fires only at times 60000 ms or more apart,
starting from `tau`. -/
lemma runAlerts_armed_chain (env : EmailEnv) (steps : List AlertStep) :
    ∀ (tau : Nat) (s : AlertState), s.emailAlertSent = true → s.lastEmailSent = millis tau →
      (∀ st ∈ steps, tau ≤ st.now ∧ st.now - tau < U32 ∧ CO2_ALERT_THRESHOLD ≤ st.co2) →
      List.Pairwise (fun a b : AlertStep => a.now ≤ b.now ∧ b.now - a.now < U32) steps →
      List.Chain' (fun a b => a + EMAIL_COOLDOWN ≤ b) (tau :: runAlerts env s steps) := by
  induction steps with
  | nil =>
    intro tau s _ _ _ _
    simp [runAlerts]
  | cons st rest ih =>
    intro tau s harm hlast hbd hpw
    obtain ⟨hle, hlt, hco2⟩ := hbd st (List.mem_cons_self st rest)
    rw [List.pairwise_cons] at hpw
    have hsub : u32sub (millis st.now) s.lastEmailSent = st.now - tau := by
      rw [hlast]
      exact u32sub_millis_eq hle hlt
    by_cases hcd : EMAIL_COOLDOWN ≤ st.now - tau
    · have heq := checkCO2Alert_fire env s st.co2 st.temperature st.humidity st.now hco2
        (Or.inr (hsub ▸ hcd))
      rw [runAlerts_cons, heq]
      show List.Chain' (fun a b => a + EMAIL_COOLDOWN ≤ b)
        (tau :: st.now :: runAlerts env ⟨true, millis st.now⟩ rest)
      rw [List.chain'_cons]
      constructor
      · unfold EMAIL_COOLDOWN at hcd ⊢
        omega
      · refine ih st.now ⟨true, millis st.now⟩ rfl rfl ?_ hpw.2
        intro b hb
        obtain ⟨h1, h2⟩ := hpw.1 b hb
        exact ⟨h1, h2, (hbd b (List.mem_cons_of_mem st hb)).2.2⟩
    · have hc : ¬(s.emailAlertSent = false ∨
          EMAIL_COOLDOWN ≤ u32sub (millis st.now) s.lastEmailSent) := by
        intro hcon
        rcases hcon with hfalse | hcool
        · rw [harm] at hfalse
          simp at hfalse
        · rw [hsub] at hcool
          exact hcd hcool
      have heq := checkCO2Alert_suppress env s st.co2 st.temperature st.humidity st.now hco2 hc
      rw [runAlerts_cons, heq]
      show List.Chain' (fun a b => a + EMAIL_COOLDOWN ≤ b) (tau :: runAlerts env s rest)
      exact ih tau s harm hlast (fun b hb => hbd b (List.mem_cons_of_mem st hb)) hpw.2

/-- The retry loop invokes the operation at most `n` times, fails exactly when
all `n` invocations fail, and on failure has made exactly `n` invocations. -/
lemma retryRun_bounds (attempts : Nat → Bool) :
    ∀ n i, (retryRun attempts i n).2 ≤ n ∧
      ((retryRun attempts i n).1 = false ↔ ∀ k < n, attempts (i + k) = false) ∧
      ((retryRun attempts i n).1 = false → (retryRun attempts i n).2 = n) := by
  intro n
  induction n with
  | zero =>
    intro i
    simp [retryRun]
  | succ m ih =>
    intro i
    by_cases h : attempts i = true
    · have hr : retryRun attempts i (m + 1) = (true, 1) := by
        simp [retryRun, h]
      rw [hr]
      refine ⟨by omega, ?_, by simp⟩
      simp only [Bool.true_eq_false, false_iff]
      intro hall
      have h0 := hall 0 (Nat.succ_pos m)
      rw [Nat.add_zero, h] at h0
      simp at h0
    · have hfalse : attempts i = false := by
        rwa [Bool.not_eq_true] at h
      have hr : retryRun attempts i (m + 1) =
          ((retryRun attempts (i + 1) m).1, (retryRun attempts (i + 1) m).2 + 1) := by
        simp [retryRun, hfalse]
      obtain ⟨ih1, ih2, ih3⟩ := ih (i + 1)
      rw [hr]
      refine ⟨by simpa using Nat.add_le_add_right ih1 1, ?_, ?_⟩
      · simp only []
        rw [ih2]
        constructor
        · intro hall k hk
          cases k with
          | zero =>
            simpa using hfalse
          | succ k2 =>
            have hx := hall k2 (by omega)
            rwa [show i + 1 + k2 = i + (k2 + 1) by omega] at hx
        · intro hall k hk
          have hx := hall (k + 1) (by omega)
          rwa [show i + (k + 1) = i + 1 + k by omega] at hx
      · intro hfail
        simp only [] at hfail
        rw [ih3 hfail]

/-- The retry loop stops right after the first successful invocation. -/
lemma retryRun_first_success (attempts : Nat → Bool) :
    ∀ n i k, k < n → attempts (i + k) = true → (∀ j < k, attempts (i + j) = false) →
      retryRun attempts i n = (true, k + 1) := by
  intro n
  induction n with
  | zero =>
    intro i k hk _ _
    exact absurd hk (Nat.not_lt_zero k)
  | succ m ih =>
    intro i k hk hsucc hprev
    cases k with
    | zero =>
      rw [Nat.add_zero] at hsucc
      simp [retryRun, hsucc]
    | succ k2 =>
      have h0 : attempts i = false := by
        simpa using hprev 0 (Nat.succ_pos k2)
      have hrec := ih (i + 1) k2 (by omega)
        (by rw [show i + 1 + k2 = i + (k2 + 1) by omega]; exact hsucc)
        (fun j hj => by
          rw [show i + 1 + j = i + (j + 1) by omega]
          exact hprev (j + 1) (by omega))
      simp [retryRun, h0, hrec]

/-- Over any chronological over-threshold run, from any starting state, the
fired-notification times are spaced by at least the cooldown. -/
lemma runAlerts_chain (env : EmailEnv) (steps : List AlertStep) :
    ∀ s : AlertState, (∀ st ∈ steps, CO2_ALERT_THRESHOLD ≤ st.co2) →
      List.Pairwise (fun a b : AlertStep => a.now ≤ b.now ∧ b.now - a.now < U32) steps →
      List.Chain' (fun a b => a + EMAIL_COOLDOWN ≤ b) (runAlerts env s steps) := by
  induction steps with
  | nil =>
    intro s _ _
    simp [runAlerts]
  | cons st rest ih =>
    intro s hco2 hpw
    rw [List.pairwise_cons] at hpw
    by_cases hn : (checkCO2Alert env s st.co2 st.temperature st.humidity st.now).notified = true
    · have heq := checkCO2Alert_of_notified env s st.co2 st.temperature st.humidity st.now hn
      rw [runAlerts_cons, heq]
      show List.Chain' (fun a b => a + EMAIL_COOLDOWN ≤ b)
        (st.now :: runAlerts env ⟨true, millis st.now⟩ rest)
      refine runAlerts_armed_chain env rest st.now ⟨true, millis st.now⟩ rfl rfl ?_ hpw.2
      intro b hb
      obtain ⟨h1, h2⟩ := hpw.1 b hb
      exact ⟨h1, h2, hco2 b (List.mem_cons_of_mem st hb)⟩
    · have hn2 : (checkCO2Alert env s st.co2 st.temperature st.humidity st.now).notified = false := by
        rwa [Bool.not_eq_true] at hn
      have heq := checkCO2Alert_of_not_notified env s st.co2 st.temperature st.humidity st.now
        (hco2 st (List.mem_cons_self st rest)) hn2
      rw [runAlerts_cons, heq]
      show List.Chain' (fun a b => a + EMAIL_COOLDOWN ≤ b) (runAlerts env s rest)
      exact ih s (fun b hb => hco2 b (List.mem_cons_of_mem st hb)) hpw.2

/-! The claims. -/

/-- Claim C1: hysteresis.  Once armed, a reading with co2 in
[threshold - hysteresisMargin, threshold) = [900, 1000) leaves the state
armed and fires no notification (the call has no effect at all), and from an
armed state the machine disarms only when co2 < 900 ppm. -/
theorem hysteresis_band_holds (env : EmailEnv) (s : AlertState)
    (co2 temperature humidity : ℚ) (now : Nat) (harm : s.emailAlertSent = true) :
    (CO2_ALERT_THRESHOLD - 100 ≤ co2 → co2 < CO2_ALERT_THRESHOLD →
      checkCO2Alert env s co2 temperature humidity now = ⟨s, false, []⟩) ∧
    ((checkCO2Alert env s co2 temperature humidity now).state.emailAlertSent = false →
      co2 < CO2_ALERT_THRESHOLD - 100) := by
  constructor
  · intro h1 h2
    exact checkCO2Alert_band env s co2 temperature humidity now h1 h2
  · intro hdis
    by_contra hnot
    rw [not_lt] at hnot
    by_cases hhi : CO2_ALERT_THRESHOLD ≤ co2
    · by_cases hc : s.emailAlertSent = false ∨
          EMAIL_COOLDOWN ≤ u32sub (millis now) s.lastEmailSent
      · rw [checkCO2Alert_fire env s co2 temperature humidity now hhi hc] at hdis
        simp at hdis
      · rw [checkCO2Alert_suppress env s co2 temperature humidity now hhi hc] at hdis
        rw [harm] at hdis
        simp at hdis
    · rw [checkCO2Alert_band env s co2 temperature humidity now hnot (not_le.mp hhi)] at hdis
      rw [harm] at hdis
      simp at hdis

/-- Witness for C1: an armed state at co2 = 950 stays armed with no effect. -/
theorem hysteresis_band_holds_witness :
    checkCO2Alert ⟨true, true, true⟩ ⟨true, 0⟩ 950 25 50 123 = ⟨⟨true, 0⟩, false, []⟩ :=
  (hysteresis_band_holds ⟨true, true, true⟩ ⟨true, 0⟩ 950 25 50 123 rfl).1
    (by norm_num [CO2_ALERT_THRESHOLD]) (by norm_num [CO2_ALERT_THRESHOLD])

/-- Claim C2: cooldown.  Over any chronological sequence of evaluations with
all readings at or over the threshold (and true times pairwise separated by
less than 2^32 ms), consecutive fired notifications are at least
cooldownInterval = 60000 ms apart — the first notification of the sequence is
exempt — and, equivalently, while armed a notification fires only when
now - lastNotifiedAt has reached the cooldown. -/
theorem cooldown_spacing (env : EmailEnv) (steps : List AlertStep) (s : AlertState)
    (hco2 : ∀ st ∈ steps, CO2_ALERT_THRESHOLD ≤ st.co2)
    (hchron : List.Pairwise (fun a b : AlertStep => a.now ≤ b.now ∧ b.now - a.now < U32) steps) :
    List.Chain' (fun a b => a + EMAIL_COOLDOWN ≤ b) (runAlerts env s steps) ∧
    (∀ (e2 : EmailEnv) (s2 : AlertState) (c2 t2 h2 : ℚ) (n2 : Nat),
      s2.emailAlertSent = true → (checkCO2Alert e2 s2 c2 t2 h2 n2).notified = true →
      EMAIL_COOLDOWN ≤ u32sub (millis n2) s2.lastEmailSent) := by
  constructor
  · exact runAlerts_chain env steps s hco2 hchron
  · intro e2 s2 c2 t2 h2 n2 harm hnote
    by_cases hcl : EMAIL_COOLDOWN ≤ u32sub (millis n2) s2.lastEmailSent
    · exact hcl
    · exfalso
      by_cases hco : CO2_ALERT_THRESHOLD ≤ c2
      · have heq := checkCO2Alert_suppress e2 s2 c2 t2 h2 n2 hco (by
          intro hcon
          rcases hcon with hf | hcool
          · rw [harm] at hf
            simp at hf
          · exact hcl hcool)
        rw [heq] at hnote
        simp at hnote
      · rw [not_le] at hco
        by_cases hlo : c2 < CO2_ALERT_THRESHOLD - 100
        · rw [checkCO2Alert_disarm e2 s2 c2 t2 h2 n2 hlo] at hnote
          simp at hnote
        · rw [checkCO2Alert_band e2 s2 c2 t2 h2 n2 (not_lt.mp hlo) hco] at hnote
          simp at hnote

/-- Witness for C2: scenarios 2-4 of the spec — fire at t=0, suppressed at
t=30 s, fired again at t=90 s. -/
theorem cooldown_spacing_witness :
    List.Chain' (fun a b => a + EMAIL_COOLDOWN ≤ b)
      (runAlerts ⟨true, true, true⟩ ⟨false, 0⟩
        [⟨1200, 25, 50, 0⟩, ⟨1300, 25, 50, 30000⟩, ⟨1300, 25, 50, 90000⟩]) :=
  (cooldown_spacing ⟨true, true, true⟩
    [⟨1200, 25, 50, 0⟩, ⟨1300, 25, 50, 30000⟩, ⟨1300, 25, 50, 90000⟩] ⟨false, 0⟩
    (by intro st hst; fin_cases hst <;> norm_num [CO2_ALERT_THRESHOLD])
    (by norm_num [List.pairwise_cons, U32])).1

/-- Claim C3: bounded retry with maxAttempts = n ≥ 1 invokes the operation at
most n times, stops right after the first success, fails exactly when all n
invocations fail (having then invoked exactly n times), identically for the
sensor and publish instances, whose defaults are n = 3. -/
theorem retry_bound (attempts : Nat → Bool) (n : Nat) (hn : 1 ≤ n) :
    (readSensorWithRetryN attempts n).2 ≤ n ∧
    publishWithRetryN attempts n = readSensorWithRetryN attempts n ∧
    ((readSensorWithRetryN attempts n).1 = false ↔ ∀ k < n, attempts k = false) ∧
    ((readSensorWithRetryN attempts n).1 = false → (readSensorWithRetryN attempts n).2 = n) ∧
    (∀ k < n, attempts k = true → (∀ j < k, attempts j = false) →
      readSensorWithRetryN attempts n = (true, k + 1)) ∧
    readSensorWithRetry attempts = readSensorWithRetryN attempts 3 ∧
    publishWithRetry attempts = publishWithRetryN attempts 3 := by
  obtain ⟨h1, h2, h3⟩ := retryRun_bounds attempts n 0
  refine ⟨h1, rfl, ?_, h3, ?_, rfl, rfl⟩
  · unfold readSensorWithRetryN
    simpa using h2
  · intro k hk hs hprev
    unfold readSensorWithRetryN
    exact retryRun_first_success attempts n 0 k hk (by simpa using hs)
      (fun j hj => by simpa using hprev j hj)

/-- Witness for C3: n = 3 and an operation that succeeds on its second
invocation stops after exactly two invocations. -/
theorem retry_bound_witness :
    readSensorWithRetryN (fun k => decide (k = 1)) 3 = (true, 2) :=
  (retry_bound (fun k => decide (k = 1)) 3 (by norm_num)).2.2.2.2.1 1 (by norm_num)
    (by decide) (by decide)

/-- Counterexample for C4 as stated: at co2 = 1000.5 ppm the reading exceeds
the raw 1000 ppm threshold, yet the completed cycle never drives the buzzer
high, because loop() tests the truncated value int(co2) > 1000. -/
theorem buzzer_raw_threshold_cex :
    (1000 : ℚ) < 2001 / 2 ∧
    Effect.buzzerWrite true ∉
      (loopCycle ⟨true, fun _ => true, ⟨2001 / 2, 22, 50⟩, fun _ => true,
        ⟨true, true, true⟩, 0⟩ ⟨false, 0⟩).2 := by
  have hct : cTrunc (2001 / 2 : ℚ) = 1000 := by
    norm_num [cTrunc]
    decide
  constructor
  · norm_num
  · norm_num [loopCycle, readSensorWithRetry, readSensorWithRetryN, retryRun,
      publishWithRetry, publishWithRetryN, displayTrace, checkCO2Alert, sendEmailAlert,
      CO2_ALERT_THRESHOLD, EMAIL_COOLDOWN, millis, u32sub, U32, hct,
      List.mem_append, List.mem_replicate]
    simp

/-- Claim C4 amended: on every completed cycle the buzzer is driven high
exactly when the truncated reading int(co2) exceeds 1000 — independently of
the alert state machine — and driven low afterwards on every completed
cycle. -/
theorem buzzer_trunc_threshold (env : CycleEnv) (s : AlertState)
    (hok : (readSensorWithRetry env.sensorAttempts).1 = true) :
    (Effect.buzzerWrite true ∈ (loopCycle env s).2 ↔ 1000 < cTrunc env.reading.co2) ∧
    Effect.buzzerWrite false ∈ (loopCycle env s).2 := by
  have hnb := checkCO2Alert_no_buzzer env.email s env.reading.co2 env.reading.temperature
    env.reading.humidity env.now
  by_cases hmq : env.mqttConnected <;>
  by_cases hp : (publishWithRetry env.publishAttempts).1 = false <;>
  by_cases hc : 1000 < cTrunc env.reading.co2 <;>
    simp [loopCycle, hok, hmq, hp, hc, displayTrace, hnb,
      List.mem_append, List.mem_replicate]

/-- Witness for C4 amended: a cycle with co2 = 1500 sounds the buzzer. -/
theorem buzzer_trunc_threshold_witness :
    (Effect.buzzerWrite true ∈
        (loopCycle ⟨true, fun _ => true, ⟨1500, 25, 50⟩, fun _ => true,
          ⟨true, true, true⟩, 0⟩ ⟨false, 0⟩).2 ↔
      1000 < cTrunc (⟨true, fun _ => true, ⟨1500, 25, 50⟩, fun _ => true,
          ⟨true, true, true⟩, 0⟩ : CycleEnv).reading.co2) ∧
    Effect.buzzerWrite false ∈
      (loopCycle ⟨true, fun _ => true, ⟨1500, 25, 50⟩, fun _ => true,
        ⟨true, true, true⟩, 0⟩ ⟨false, 0⟩).2 :=
  buzzer_trunc_threshold
    ⟨true, fun _ => true, ⟨1500, 25, 50⟩, fun _ => true, ⟨true, true, true⟩, 0⟩
    ⟨false, 0⟩ (by decide)

/-- Claim C5: when acquisition fails after all retries, the cycle renders the
sensor-error annunciation and aborts: the alert state is unchanged, no alert
evaluation effect (email dispatch or flash) occurs, and no publish is
attempted. -/
theorem sensor_failure_aborts (env : CycleEnv) (s : AlertState)
    (hfail : (readSensorWithRetry env.sensorAttempts).1 = false) :
    (loopCycle env s).1 = s ∧
    Effect.lcdPrint "Sensor Error!" ∈ (loopCycle env s).2 ∧
    (∀ t p, Effect.mqttPublish t p ∉ (loopCycle env s).2) ∧
    Effect.smtpConnect ∉ (loopCycle env s).2 ∧
    Effect.smtpSendMail ∉ (loopCycle env s).2 ∧
    (∀ r g b, Effect.lcdSetRGB r g b ∉ (loopCycle env s).2) := by
  by_cases hmq : env.mqttConnected <;>
    simp [loopCycle, hfail, hmq, List.mem_append, List.mem_replicate]

/-- Witness for C5: a cycle whose three sensor attempts all fail leaves the
alert state untouched. -/
theorem sensor_failure_aborts_witness :
    (loopCycle ⟨true, fun _ => false, ⟨400, 20, 40⟩, fun _ => true,
      ⟨true, true, true⟩, 0⟩ ⟨false, 0⟩).1 = ⟨false, 0⟩ :=
  (sensor_failure_aborts
    ⟨true, fun _ => false, ⟨400, 20, 40⟩, fun _ => true, ⟨true, true, true⟩, 0⟩
    ⟨false, 0⟩ (by decide)).1

/-- Counterexample for C6 as stated: with all collaborators up, a firing
evaluation's own trace contains the SMTP dispatch and the display flash, so
checkCO2Alert is not free of I/O — it dispatches the notification and drives
the display itself rather than leaving both to the caller. -/
theorem evaluate_self_dispatch_cex :
    Effect.smtpSendMail ∈
      (checkCO2Alert ⟨true, true, true⟩ ⟨false, 0⟩ 1200 25 50 0).trace ∧
    Effect.lcdSetRGB 255 0 0 ∈
      (checkCO2Alert ⟨true, true, true⟩ ⟨false, 0⟩ 1200 25 50 0).trace := by
  norm_num [checkCO2Alert, sendEmailAlert, CO2_ALERT_THRESHOLD, EMAIL_COOLDOWN,
    millis, u32sub, U32]

/-- Claim C6 amended: the state transition and the fire decision of
checkCO2Alert are pure functions of (alert state, co2, clock) alone —
independent of the temperature, the humidity and the dispatch collaborators —
but the dispatch and the visual flash are performed inside checkCO2Alert
itself: a firing call's own trace contains the flash (and, with the
collaborators up, the SMTP dispatch), while a non-firing call has an empty
trace. -/
theorem evaluate_state_pure (env : EmailEnv) (s : AlertState)
    (co2 temperature humidity : ℚ) (now : Nat) :
    (checkCO2Alert env s co2 temperature humidity now).state = alertStateStep s co2 now ∧
    (checkCO2Alert env s co2 temperature humidity now).notified = alertFires s co2 now ∧
    ((checkCO2Alert env s co2 temperature humidity now).notified = true →
      Effect.lcdSetRGB 255 0 0 ∈ (checkCO2Alert env s co2 temperature humidity now).trace) ∧
    (env = ⟨true, true, true⟩ →
      (checkCO2Alert env s co2 temperature humidity now).notified = true →
      Effect.smtpSendMail ∈ (checkCO2Alert env s co2 temperature humidity now).trace) ∧
    ((checkCO2Alert env s co2 temperature humidity now).notified = false →
      (checkCO2Alert env s co2 temperature humidity now).trace = []) := by
  by_cases hco2 : CO2_ALERT_THRESHOLD ≤ co2
  · by_cases hc : s.emailAlertSent = false ∨
        EMAIL_COOLDOWN ≤ u32sub (millis now) s.lastEmailSent
    · rw [checkCO2Alert_fire env s co2 temperature humidity now hco2 hc]
      refine ⟨by simp [alertStateStep, hco2, hc], by simp [alertFires, hco2, hc], ?_, ?_, ?_⟩
      · intro _
        simp [List.mem_append]
      · intro henv _
        subst henv
        simp [sendEmailAlert, List.mem_append]
      · intro hfalse
        simp at hfalse
    · rw [checkCO2Alert_suppress env s co2 temperature humidity now hco2 hc]
      exact ⟨by simp [alertStateStep, hco2, hc], by simp [alertFires, hco2, hc],
        by simp, by simp, fun _ => rfl⟩
  · by_cases hlo : co2 < CO2_ALERT_THRESHOLD - 100
    · rw [checkCO2Alert_disarm env s co2 temperature humidity now hlo]
      exact ⟨by simp [alertStateStep, hco2, hlo], by simp [alertFires, hco2],
        by simp, by simp, fun _ => rfl⟩
    · rw [checkCO2Alert_band env s co2 temperature humidity now (not_lt.mp hlo)
        (not_le.mp hco2)]
      exact ⟨by simp [alertStateStep, hco2, hlo], by simp [alertFires, hco2],
        by simp, by simp, fun _ => rfl⟩

/-- Claim C7: the telemetry payload is the key=value pairs joined by the
ampersand separator in the fixed order field1 (co2), field2 (temperature),
field3 (humidity), status (fixed marker string). -/
theorem payload_format (r : Reading) : payloadString r = payloadSpec r := by
  simp only [payloadString, payloadSpec, String.intercalate, String.intercalate.go]
  rw [amp_field2_split, amp_field3_split, amp_status_split]
  simp only [String.append_assoc]

/-- Claim C8: when the alert condition fires, the state is armed and the
cooldown stamp set to now regardless of the dispatch outcome — with WiFi
down no mail is dispatched at all, yet every further over-threshold
evaluation within the cooldown window fires nothing. -/
theorem arming_independent_of_dispatch (env : EmailEnv) (s : AlertState)
    (co2 temperature humidity : ℚ) (now : Nat)
    (hco2 : CO2_ALERT_THRESHOLD ≤ co2)
    (hc : s.emailAlertSent = false ∨ EMAIL_COOLDOWN ≤ u32sub (millis now) s.lastEmailSent) :
    (checkCO2Alert env s co2 temperature humidity now).state = ⟨true, millis now⟩ ∧
    (checkCO2Alert env s co2 temperature humidity now).notified = true ∧
    (env.wifiConnected = false →
      Effect.smtpSendMail ∉ (checkCO2Alert env s co2 temperature humidity now).trace) ∧
    (∀ (e2 : EmailEnv) (c2 t2 h2 : ℚ) (n2 : Nat), CO2_ALERT_THRESHOLD ≤ c2 →
      u32sub (millis n2) (millis now) < EMAIL_COOLDOWN →
      (checkCO2Alert e2 ⟨true, millis now⟩ c2 t2 h2 n2).notified = false) := by
  rw [checkCO2Alert_fire env s co2 temperature humidity now hco2 hc]
  refine ⟨rfl, rfl, ?_, ?_⟩
  · intro hwifi
    simp [sendEmailAlert, hwifi, List.mem_append]
  · intro e2 c2 t2 h2 n2 hb2 hlt
    have heq := checkCO2Alert_suppress e2 ⟨true, millis now⟩ c2 t2 h2 n2 hb2 (by
      intro hcon
      rcases hcon with hf | hcool
      · simp at hf
      · exact absurd hcool (not_le.mpr hlt))
    rw [heq]

/-- Witness for C8: with WiFi down, a firing evaluation still arms the state
and stamps the clock. -/
theorem arming_independent_of_dispatch_witness :
    (checkCO2Alert ⟨false, true, true⟩ ⟨false, 0⟩ 1200 25 50 0).state =
      ⟨true, millis 0⟩ :=
  (arming_independent_of_dispatch ⟨false, true, true⟩ ⟨false, 0⟩ 1200 25 50 0
    (by norm_num [CO2_ALERT_THRESHOLD]) (Or.inl rfl)).1

/-- Claim C9: the cooldown does not survive disarming — a sequence that fires
at t = 0 ms, disarms at co2 = 850, then reads co2 = 1200 at t = 2000 ms fires
again immediately, only 2000 ms < cooldownInterval after the first
notification. -/
theorem disarm_resets_cooldown :
    runAlerts ⟨true, true, true⟩ ⟨false, 0⟩
      [⟨1200, 25, 50, 0⟩, ⟨850, 25, 50, 1000⟩, ⟨1200, 25, 50, 2000⟩] = [0, 2000] ∧
    2000 - 0 < EMAIL_COOLDOWN := by
  constructor
  · norm_num [runAlerts, checkCO2Alert, sendEmailAlert, CO2_ALERT_THRESHOLD,
      EMAIL_COOLDOWN, millis, u32sub, U32]
  · norm_num [EMAIL_COOLDOWN]

/-- Claim C10: the cooldown test's unsigned 32-bit subtraction of wrapped
clocks recovers the true elapsed time — and hence compares correctly against
the 60000 ms cooldown — for every pair of timestamps whose true separation is
under 2^32 ms, including across a millis() overflow. -/
theorem cooldown_wraparound (lastT nowT : Nat) (hle : lastT ≤ nowT)
    (hlt : nowT - lastT < U32) :
    u32sub (millis nowT) (millis lastT) = nowT - lastT ∧
    (EMAIL_COOLDOWN ≤ u32sub (millis nowT) (millis lastT) ↔
      EMAIL_COOLDOWN ≤ nowT - lastT) := by
  have h := u32sub_millis_eq hle hlt
  exact ⟨h, by rw [h]⟩

/-- Witness for C10: timestamps straddling the 2^32 ms clock overflow,
separated by exactly 60000 ms of true time. -/
theorem cooldown_wraparound_witness :
    u32sub (millis 4295026296) (millis 4294966296) = 4295026296 - 4294966296 :=
  (cooldown_wraparound 4294966296 4295026296 (by norm_num) (by norm_num [U32])).1

end CO2Monitor
